import Mathlib

/-!
Shallow embedding of the Debounce16 library (src/Debounce16.h,
src/Debounce16.cpp): a 16-bit pattern-based button debouncer with a gesture
state machine (double press, long press, click counting) layered on top.

Machine integers are modelled as `Nat` with explicit reduction modulo `2 ^ 16`
(the `uint16_t` history register) and modulo `2 ^ 32` (`unsigned long`
millisecond timestamps on the ESP32 target; unsigned subtraction is `usub`).
Callback invocation (`triggerCallback`) is modelled by emitting an `Event`
into an event log: the C++ code invokes the registered callback exactly where
the embedding emits the event.  `digitalRead` / `pinMode` are hardware glue:
`update` takes the raw sampled level as an argument and `readButtonRaw`
models the polarity correction applied to it.
-/

/-- Callback invocation sites of the C++ code, as observable events. -/
inductive Event where
  | press
  | release
  | doublePress
  | longPressStart
  | longPressEnd
  deriving DecidableEq, Repr

/-- The `ButtonState` enum of Debounce16.h (all six states, including the two
reserved ones). -/
inductive ButtonState where
  | STATE_IDLE
  | STATE_PRESS_FIRST
  | STATE_RELEASE_FIRST
  | STATE_WAIT_DOUBLE_PRESS
  | STATE_WAIT_LONG_PRESS
  | STATE_LONG_PRESS_ACTIVE
  deriving DecidableEq, Repr

/-- Bit pattern constant `MASK_PRESS = 0x003F` of Debounce16.h. -/
def MASK_PRESS : Nat := 0x003F

/-- Bit pattern constant `PATTERN_PRESS = 0x003F` of Debounce16.h. -/
def PATTERN_PRESS : Nat := 0x003F

/-- Bit pattern constant `MASK_RELEASE = 0xFC00` of Debounce16.h. -/
def MASK_RELEASE : Nat := 0xFC00

/-- Bit pattern constant `PATTERN_RELEASE = 0xFC00` of Debounce16.h. -/
def PATTERN_RELEASE : Nat := 0xFC00

/-- Bit pattern constant `PATTERN_DOWN = 0xFFFF` of Debounce16.h. -/
def PATTERN_DOWN : Nat := 0xFFFF

/-- Bit pattern constant `PATTERN_UP = 0x0000` of Debounce16.h. -/
def PATTERN_UP : Nat := 0x0000

/-- Modulus of the 16-bit history register (`uint16_t`). -/
def U16 : Nat := 65536

/-- Modulus of `unsigned long` (32 bits on the ESP32 target). -/
def U32 : Nat := 4294967296

/-- C unsigned subtraction (`unsigned long a - unsigned long b`) modulo
`2 ^ 32`. -/
def usub (a b : Nat) : Nat :=
  (a % U32 + (U32 - b % U32)) % U32

/-- The mutable state of a `Debounce16` object (the private data members of
the class in Debounce16.h; callback pointers are modelled by the event log
instead of stored function pointers). -/
structure Debounce16 where
  historyButton : Nat
  pinButton : Nat
  levelActive : Bool
  stateButton : ButtonState
  timeEvent : Nat
  timePress : Nat
  flagEnableDoublePress : Bool
  flagEnableLongPress : Bool
  windowDoublePress : Nat
  thresholdLongPress : Nat
  countClick : Nat
  flagDoublePressed : Bool
  flagLongPressed : Bool
  flagPressProcessed : Bool
  flagReleaseProcessed : Bool
  deriving DecidableEq, Repr

/-- The `Debounce16(pin, activeLevel)` constructor (GPIO `pinMode`
configuration is hardware glue and has no state in the embedding). -/
def construct (pin : Nat) (activeLevel : Bool) : Debounce16 :=
  { historyButton := PATTERN_UP
    pinButton := pin
    levelActive := activeLevel
    stateButton := ButtonState.STATE_IDLE
    timeEvent := 0
    timePress := 0
    windowDoublePress := 300
    thresholdLongPress := 1000
    flagEnableDoublePress := false
    flagEnableLongPress := false
    countClick := 0
    flagDoublePressed := false
    flagLongPressed := false
    flagPressProcessed := false
    flagReleaseProcessed := false }

/-- `Debounce16::readButtonRaw` applied to the physical level read from the
pin: active HIGH returns the raw level, active LOW inverts it. -/
def Debounce16.readButtonRaw (s : Debounce16) (stateRaw : Bool) : Bool :=
  if s.levelActive then stateRaw else !stateRaw

/-- `Debounce16::isPressed`: one-shot press-edge detection against
`MASK_PRESS`/`PATTERN_PRESS`, guarded by `flagPressProcessed`.  Returns the
result, the updated state and the emitted events. -/
def Debounce16.isPressed (s : Debounce16) : Bool × Debounce16 × List Event :=
  if s.historyButton &&& MASK_PRESS = PATTERN_PRESS ∧ s.flagPressProcessed = false then
    (true, { s with flagPressProcessed := true }, [Event.press])
  else if ¬(s.historyButton &&& MASK_PRESS = PATTERN_PRESS) then
    (false, { s with flagPressProcessed := false }, [])
  else
    (false, s, [])

/-- `Debounce16::isReleased`: one-shot release-edge detection against
`MASK_RELEASE`/`PATTERN_RELEASE`, guarded by `flagReleaseProcessed`. -/
def Debounce16.isReleased (s : Debounce16) : Bool × Debounce16 × List Event :=
  if s.historyButton &&& MASK_RELEASE = PATTERN_RELEASE ∧ s.flagReleaseProcessed = false then
    (true, { s with flagReleaseProcessed := true }, [Event.release])
  else if ¬(s.historyButton &&& MASK_RELEASE = PATTERN_RELEASE) then
    (false, { s with flagReleaseProcessed := false }, [])
  else
    (false, s, [])

/-- `Debounce16::isDown`: the full 16-bit history equals `PATTERN_DOWN`. -/
def Debounce16.isDown (s : Debounce16) : Bool :=
  s.historyButton == PATTERN_DOWN

/-- `Debounce16.isUp`: the full 16-bit history equals `PATTERN_UP`. -/
def Debounce16.isUp (s : Debounce16) : Bool :=
  s.historyButton == PATTERN_UP

/-- `Debounce16::enableDoublePressDetection`: set the enable flag; on
disabling also clear the click counter and the double-press flag. -/
def Debounce16.enableDoublePressDetection (s : Debounce16) (enable : Bool) : Debounce16 :=
  let s1 := { s with flagEnableDoublePress := enable }
  if enable = false then
    { s1 with countClick := 0, flagDoublePressed := false }
  else
    s1

/-- `Debounce16::setDoublePressWindow`. -/
def Debounce16.setDoublePressWindow (s : Debounce16) (windowMs : Nat) : Debounce16 :=
  { s with windowDoublePress := windowMs % U16 }

/-- `Debounce16::enableLongPressDetection`: set the enable flag; on disabling
also clear the long-press flag. -/
def Debounce16.enableLongPressDetection (s : Debounce16) (enable : Bool) : Debounce16 :=
  let s1 := { s with flagEnableLongPress := enable }
  if enable = false then
    { s1 with flagLongPressed := false }
  else
    s1

/-- `Debounce16::setLongPressThreshold`. -/
def Debounce16.setLongPressThreshold (s : Debounce16) (thresholdMs : Nat) : Debounce16 :=
  { s with thresholdLongPress := thresholdMs % U16 }

/-- `Debounce16::isDoublePressed`: read and clear the one-shot double-press
flag. -/
def Debounce16.isDoublePressed (s : Debounce16) : Bool × Debounce16 :=
  let result := s.flagDoublePressed
  if result then
    (result, { s with flagDoublePressed := false })
  else
    (result, s)

/-- `Debounce16::isLongPressed`: non-clearing read of the long-press flag. -/
def Debounce16.isLongPressed (s : Debounce16) : Bool :=
  s.flagLongPressed

/-- `Debounce16::getClickCount`: return the click counter; reset it to 0 only
when it is positive and the state machine is idle. -/
def Debounce16.getClickCount (s : Debounce16) : Nat × Debounce16 :=
  let result := s.countClick
  if 0 < s.countClick ∧ s.stateButton = ButtonState.STATE_IDLE then
    (result, { s with countClick := 0 })
  else
    (result, s)

/-- `Debounce16::resetState`: return to idle, clearing the click counter and
the double-press and long-press flags. -/
def Debounce16.resetState (s : Debounce16) : Debounce16 :=
  { s with stateButton := ButtonState.STATE_IDLE
           countClick := 0
           flagDoublePressed := false
           flagLongPressed := false }

/-- `Debounce16::updateStateMachine`, with `millis()` passed in as
`currentTime` (reduced modulo `2 ^ 32` like the `unsigned long` it is stored
into).  The control flow mirrors the C++ `switch` statement case by case,
including the fall-through inside `STATE_PRESS_FIRST` where the long-press
threshold check precedes the `isReleased()` call in the same tick. -/
def Debounce16.updateStateMachine (s : Debounce16) (currentTimeIn : Nat) :
    Debounce16 × List Event :=
  let currentTime := currentTimeIn % U32
  match s.stateButton with
  | ButtonState.STATE_IDLE =>
      let p := s.isPressed
      if p.1 then
        ({ p.2.1 with timePress := currentTime
                      countClick := 1
                      stateButton := ButtonState.STATE_PRESS_FIRST }, p.2.2)
      else
        (p.2.1, p.2.2)
  | ButtonState.STATE_PRESS_FIRST =>
      let lp :=
        if s.flagEnableLongPress then
          if s.thresholdLongPress ≤ usub currentTime s.timePress ∧ s.flagLongPressed = false then
            ({ s with flagLongPressed := true
                      stateButton := ButtonState.STATE_LONG_PRESS_ACTIVE },
             [Event.longPressStart])
          else
            (s, ([] : List Event))
        else
          (s, ([] : List Event))
      let r := lp.1.isReleased
      if r.1 then
        let s3 := { r.2.1 with timeEvent := currentTime }
        if s3.flagLongPressed then
          (s3.resetState, lp.2 ++ r.2.2)
        else if s3.flagEnableDoublePress then
          ({ s3 with stateButton := ButtonState.STATE_RELEASE_FIRST }, lp.2 ++ r.2.2)
        else
          (s3.resetState, lp.2 ++ r.2.2)
      else
        (r.2.1, lp.2 ++ r.2.2)
  | ButtonState.STATE_RELEASE_FIRST =>
      let timeElapsed := usub currentTime s.timeEvent
      let p := s.isPressed
      if p.1 ∧ timeElapsed < s.windowDoublePress then
        ({ p.2.1 with countClick := 2
                      timePress := currentTime
                      stateButton := ButtonState.STATE_PRESS_FIRST }, p.2.2)
      else if s.windowDoublePress ≤ timeElapsed then
        if p.2.1.countClick = 2 then
          (({ p.2.1 with flagDoublePressed := true }).resetState,
           p.2.2 ++ [Event.doublePress])
        else
          (p.2.1.resetState, p.2.2)
      else
        (p.2.1, p.2.2)
  | ButtonState.STATE_LONG_PRESS_ACTIVE =>
      let r := s.isReleased
      if r.1 then
        (({ r.2.1 with flagLongPressed := false }).resetState,
         r.2.2 ++ [Event.longPressEnd])
      else
        (r.2.1, r.2.2)
  | ButtonState.STATE_WAIT_DOUBLE_PRESS => (s, [])
  | ButtonState.STATE_WAIT_LONG_PRESS => (s, [])

/-- `Debounce16::update`: admit one raw sample into the 16-bit shift history
(the `uint16_t` shift truncates modulo `2 ^ 16`) and, when double-press or
long-press detection is enabled, run the state machine. -/
def Debounce16.update (s : Debounce16) (stateRaw : Bool) (currentTime : Nat) :
    Debounce16 × List Event :=
  let currentState := s.readButtonRaw stateRaw
  let s1 := { s with historyButton :=
    ((s.historyButton <<< 1) ||| (if currentState then 1 else 0)) % U16 }
  if s1.flagEnableDoublePress ∨ s1.flagEnableLongPress then
    s1.updateStateMachine currentTime
  else
    (s1, [])

/-- Run a sequence of ticks, each a `(raw sample, millis)` pair, collecting
the event log. -/
def runTicks (s : Debounce16) : List (Bool × Nat) → Debounce16 × List Event
  | [] => (s, [])
  | (b, t) :: rest =>
      let u := s.update b t
      let k := runTicks u.1 rest
      (k.1, u.2 ++ k.2)

/-- Attach 1 ms-cadence timestamps `t0, t0 + 1, ...` to a sample list. -/
def timedFrom (t0 : Nat) : List Bool → List (Bool × Nat)
  | [] => []
  | b :: bs => (b, t0) :: timedFrom (t0 + 1) bs

/-- The history-register transition of one `update` call: shift left, insert
the new sample in bit 0, truncate to 16 bits. -/
def histStep (h : Nat) (b : Bool) : Nat :=
  ((h <<< 1) ||| (if b then 1 else 0)) % U16

/-- The history register after feeding a sample list to `histStep`. -/
def histRun (h : Nat) (bs : List Bool) : Nat :=
  bs.foldl histStep h

/-- One filter tick as used by the press-edge claim: admit one sample via
`update` and then poll `isPressed`, returning the consumed state and the
polled result. -/
def pressPoll (s : Debounce16) (b : Bool) : Debounce16 × Bool :=
  let u := s.update b 0
  let p := u.1.isPressed
  (p.2.1, p.1)

/-- The list of `isPressed` results obtained by polling after each admitted
sample. -/
def pressTrace (s : Debounce16) : List Bool → List Bool
  | [] => []
  | b :: bs => (pressPoll s b).2 :: pressTrace (pressPoll s b).1 bs

/-- Closed form of the polled press-edge outputs: the edge fires exactly when
the press pattern holds after the new sample and did not hold before it. -/
def pressOutF (h : Nat) : List Bool → List Bool
  | [] => []
  | b :: bs =>
      (decide (histStep h b &&& MASK_PRESS = PATTERN_PRESS) &&
       !(decide (h &&& MASK_PRESS = PATTERN_PRESS))) :: pressOutF (histStep h b) bs

/-- Invariant of a filter-only run (advanced features disabled, active-HIGH
polarity): the press one-shot guard agrees with the current pattern match. -/
def FilterInv (s : Debounce16) : Prop :=
  s.levelActive = true ∧
  s.flagEnableDoublePress = false ∧
  s.flagEnableLongPress = false ∧
  s.flagPressProcessed = decide (s.historyButton &&& MASK_PRESS = PATTERN_PRESS)

/-- The click-counter invariant of the gesture machine: in the idle phase the
click counter is zero. -/
def IdleInv (s : Debounce16) : Prop :=
  s.stateButton = ButtonState.STATE_IDLE → s.countClick = 0

/-- A freshly constructed active-HIGH button on pin 17. -/
def b0 : Debounce16 := construct 17 true

/-- Fresh button with long-press detection enabled (default 1000 ms
threshold). -/
def s0LP : Debounce16 := b0.enableLongPressDetection true

/-- Fresh button with double-press detection enabled (default 300 ms
window). -/
def s0DP : Debounce16 := b0.enableDoublePressDetection true

/-- Fresh button with both long-press and double-press detection enabled. -/
def s0Both : Debounce16 := s0LP.enableDoublePressDetection true

/-- A clean press-then-release input: 6 ON samples (press edge on the 6th),
then 10 OFF samples (release edge on the 10th). -/
def c2pre : List Bool := List.replicate 6 true ++ List.replicate 10 false

/-- State reached by `s0Both` after `c2pre` (phase `STATE_RELEASE_FIRST`),
then disabling double-press detection mid-gesture. -/
def c2sA : Debounce16 :=
  ((runTicks s0Both (timedFrom 0 c2pre)).1).enableDoublePressDetection false

/-- Comparison state: same inputs on a button whose double-press detection
was never enabled (long-press still enabled). -/
def c2sB : Debounce16 := (runTicks s0LP (timedFrom 0 c2pre)).1

/-- Continuation after the mid-gesture disable: a second press within the old
300 ms window (6 ON samples at t = 16..21). -/
def c2runA : Debounce16 × List Event := runTicks c2sA (timedFrom 16 (List.replicate 6 true))

/-- The same continuation applied to the never-enabled comparison state. -/
def c2runB : Debounce16 × List Event := runTicks c2sB (timedFrom 16 (List.replicate 6 true))

/-- C4 scenario input: press (6 ON), release (OFF), second press whose edge
lands 350 ms after the release edge at t = 15 (6 ON at t = 360..365). -/
def c4samples : List Bool :=
  List.replicate 6 true ++ List.replicate 354 false ++ List.replicate 6 true

/-- Full run of the C4 scenario with double-press detection enabled. -/
def c4run : Debounce16 × List Event := runTicks s0DP (timedFrom 0 c4samples)

/-- C4 scenario stopped at t = 359, after the 300 ms window expired and the
machine returned to idle but before the second press. -/
def c4pre : Debounce16 × List Event :=
  runTicks s0DP (timedFrom 0 (List.replicate 6 true ++ List.replicate 354 false))

/-- C4 scenario stopped at t = 99, with the machine still waiting inside the
double-press window. -/
def c4mid : Debounce16 × List Event :=
  runTicks s0DP (timedFrom 0 (List.replicate 6 true ++ List.replicate 94 false))

/-- C5 scenario: long-press detection enabled (threshold 1000 ms) and the
button held continuously for 1100 ticks at 1 ms cadence. -/
def c5run : Debounce16 × List Event :=
  runTicks s0LP (timedFrom 0 (List.replicate 1100 true))

/-- A state whose one-shot double-press flag is set, for exercising the
read-clears-flag behavior. -/
def sFlagDP : Debounce16 := { b0 with flagDoublePressed := true }

/-- State of the double-press-enabled button after the first 5 ON samples:
the 6th ON tick consumes the press edge inside `update`. -/
def c10s : Debounce16 := (runTicks s0DP (timedFrom 0 (List.replicate 5 true))).1

set_option maxRecDepth 1000000

/-- A 16-bit value equals 0xFFFF exactly when all 16 low bits are set. -/
theorem eq_allones_iff_testBits (h : Nat) (hlt : h < 65536) :
    h = 65535 ↔ ∀ i < 16, h.testBit i = true := by
  constructor
  · rintro rfl i hi
    rw [show (65535 : Nat) = 2 ^ 16 - 1 by norm_num, Nat.testBit_two_pow_sub_one]
    simpa using hi
  · intro hall
    apply Nat.eq_of_testBit_eq
    intro i
    by_cases hi : i < 16
    · rw [hall i hi, show (65535 : Nat) = 2 ^ 16 - 1 by norm_num,
        Nat.testBit_two_pow_sub_one]
      simp [hi]
    · have hp : h < 2 ^ i := by
        have h1 : (65536 : Nat) = 2 ^ 16 := by norm_num
        exact lt_of_lt_of_le (h1 ▸ hlt)
          (Nat.pow_le_pow_right (by norm_num) (Nat.le_of_not_lt hi))
      rw [Nat.testBit_lt_two_pow hp, show (65535 : Nat) = 2 ^ 16 - 1 by norm_num,
        Nat.testBit_two_pow_sub_one]
      simp [hi]

/-- A 16-bit value equals 0 exactly when all 16 low bits are clear. -/
theorem eq_zero_iff_testBits (h : Nat) (hlt : h < 65536) :
    h = 0 ↔ ∀ i < 16, h.testBit i = false := by
  constructor
  · rintro rfl i _
    exact Nat.zero_testBit i
  · intro hall
    apply Nat.eq_of_testBit_eq
    intro i
    rw [Nat.zero_testBit]
    by_cases hi : i < 16
    · exact hall i hi
    · have hp : h < 2 ^ i := by
        have h1 : (65536 : Nat) = 2 ^ 16 := by norm_num
        exact lt_of_lt_of_le (h1 ▸ hlt)
          (Nat.pow_le_pow_right (by norm_num) (Nat.le_of_not_lt hi))
      exact Nat.testBit_lt_two_pow hp

/-- C1: the claim states that `isReleased` recognizes the release pattern
exactly when bits [15:10] of the history are all ON and bits [9:0] are all
OFF.  The code checks only `(history & MASK_RELEASE) == PATTERN_RELEASE`
with `MASK_RELEASE = PATTERN_RELEASE = 0xFC00`, which leaves bits [9:0]
unconstrained: on the steady-down history 0xFFFF (bit 0 is ON, so the
claimed pattern does not hold) a release edge still fires. -/
theorem C1_release_fires_despite_low_bits_on :
    (({ b0 with historyButton := PATTERN_DOWN }).isReleased).1 = true ∧
    PATTERN_DOWN.testBit 0 = true ∧
    PATTERN_DOWN &&& MASK_RELEASE = PATTERN_RELEASE := by
  decide

/-- C2: counterexample to "after disabling double-press mid-gesture, every
subsequent press sequence behaves exactly as if the feature had never been
enabled".  Both runs have long-press enabled and see the same inputs: a
press/release (reaching `STATE_RELEASE_FIRST` at t = 15), then a press at
t = 16..21.  In run A double-press is disabled mid-gesture at t = 15 (the
pending click state is indeed cleared), but the phase is left at
`STATE_RELEASE_FIRST`, so the next press edge sets the click counter to 2;
in run B (double-press never enabled) the same press yields click count 1. -/
theorem C2_counterexample :
    c2sA.stateButton = ButtonState.STATE_RELEASE_FIRST ∧
    c2sA.countClick = 0 ∧
    c2sA.flagDoublePressed = false ∧
    (c2runA.1.getClickCount).1 = 2 ∧
    (c2runB.1.getClickCount).1 = 1 := by
  decide

/-- C2 (amended): `enableDoublePressDetection false` immediately clears the
click counter and the double-press flag and lowers the enable flag, leaving
every other field — in particular the gesture phase — unchanged; because the
phase is not reset, subsequent presses need not behave as if the feature had
never been enabled. -/
theorem C2_disable_clears_click_state (s : Debounce16) :
    s.enableDoublePressDetection false =
      { s with flagEnableDoublePress := false
               countClick := 0
               flagDoublePressed := false } := by
  rfl

/-- C4: counterexample to "the click count resolves to a single click
(value 1) once the machine is back in Idle".  In the scenario (double-press
enabled, window 300 ms, press edge at t = 5, release edge at t = 15, second
press edge at t = 365, i.e. 350 ms after the release) no double press fires,
as claimed; but when the machine returns to idle at t = 315, `resetState`
has already zeroed the click counter, so `getClickCount` returns 0, not 1. -/
theorem C4_counterexample :
    c4run.2.count Event.doublePress = 0 ∧
    c4run.1.flagDoublePressed = false ∧
    c4run.2.count Event.press = 2 ∧
    c4run.1.timeEvent = 15 ∧
    c4run.1.timePress = 365 ∧
    c4pre.1.stateButton = ButtonState.STATE_IDLE ∧
    c4pre.1.countClick = 0 ∧
    (c4pre.1.getClickCount).1 = 0 := by
  decide

/-- C4 (amended): with double-press enabled (window 300 ms) and the second
press edge arriving 350 ms after the release, no double press fires (the
flag stays false and the double-press callback is never invoked); the single
click is observable as click count 1 only while the machine is still inside
the release-wait window, and once the machine is back in idle the counter
has been reset to 0. -/
theorem C4_late_second_press :
    c4run.2.count Event.doublePress = 0 ∧
    c4run.1.flagDoublePressed = false ∧
    c4mid.1.stateButton = ButtonState.STATE_RELEASE_FIRST ∧
    (c4mid.1.getClickCount).1 = 1 ∧
    c4pre.1.stateButton = ButtonState.STATE_IDLE ∧
    (c4pre.1.getClickCount).1 = 0 := by
  decide

/-- C5: with long-press enabled at threshold 1000 ms and the button held
continuously for 1100 ticks at 1 ms cadence (a confirmed press at t = 5 held
far beyond the threshold), the long-press-start callback is never invoked
and `isLongPressed` never becomes true: at the 16th ON sample the history is
0xFFFF, which matches the release mask (see C1), so a phantom release edge
resets the machine to idle at t = 15, long before the threshold; the press
one-shot guard then never re-arms while the button stays held.  The code
contradicts its own README ("isLongPressed returns true when the button is
being held down" past the threshold). -/
theorem C5_long_press_never_fires :
    c5run.2.count Event.longPressStart = 0 ∧
    c5run.2.count Event.longPressEnd = 0 ∧
    c5run.1.isLongPressed = false ∧
    c5run.1.stateButton = ButtonState.STATE_IDLE ∧
    c5run.2.count Event.release = 1 := by
  decide

/-- C6: `isDown` is true exactly when all 16 tracked history bits are ON and
`isUp` is true exactly when all 16 tracked history bits are OFF. -/
theorem C6_steady_down_up (s : Debounce16) (h16 : s.historyButton < U16) :
    (s.isDown = true ↔ ∀ i < 16, s.historyButton.testBit i = true) ∧
    (s.isUp = true ↔ ∀ i < 16, s.historyButton.testBit i = false) := by
  have hlt : s.historyButton < 65536 := h16
  constructor
  · rw [show s.isDown = (s.historyButton == 65535) from rfl, beq_iff_eq]
    exact eq_allones_iff_testBits _ hlt
  · rw [show s.isUp = (s.historyButton == 0) from rfl, beq_iff_eq]
    exact eq_zero_iff_testBits _ hlt

/-- Witness for C6 at the freshly constructed state (history 0x0000). -/
theorem C6_witness :
    (b0.isDown = true ↔ ∀ i < 16, b0.historyButton.testBit i = true) ∧
    (b0.isUp = true ↔ ∀ i < 16, b0.historyButton.testBit i = false) :=
  C6_steady_down_up b0 (by decide)

/-- C8: `getClickCount` returns the current click counter; it resets the
counter to 0 exactly when the machine is idle with a positive counter, and
otherwise (non-idle phase, or counter already 0) leaves the whole state
unchanged. -/
theorem C8_get_click_count (s : Debounce16) :
    (s.getClickCount).1 = s.countClick ∧
    (s.stateButton = ButtonState.STATE_IDLE → 0 < s.countClick →
      (s.getClickCount).2 = { s with countClick := 0 }) ∧
    (s.stateButton ≠ ButtonState.STATE_IDLE → (s.getClickCount).2 = s) ∧
    (s.countClick = 0 → (s.getClickCount).2 = s) := by
  refine ⟨?_, ?_, ?_, ?_⟩
  · simp only [Debounce16.getClickCount]
    split <;> rfl
  · intro hidle hpos
    simp only [Debounce16.getClickCount]
    rw [if_pos ⟨hpos, hidle⟩]
  · intro hnid
    simp only [Debounce16.getClickCount]
    rw [if_neg fun hc => hnid hc.2]
  · intro h0
    simp only [Debounce16.getClickCount]
    rw [if_neg fun hc => by omega]

/-- Witness for C8: on a fresh state (idle, counter 0) the read leaves the
state unchanged. -/
theorem C8_witness : (b0.getClickCount).2 = b0 :=
  (C8_get_click_count b0).2.2.2 rfl

/-- C9: a second immediate `isDoublePressed` read returns false whenever the
first returned true; the read clears the one-shot flag and modifies nothing
else. -/
theorem C9_double_press_read_once (s : Debounce16) :
    ((s.isDoublePressed).1 = true →
      (((s.isDoublePressed).2).isDoublePressed).1 = false) ∧
    (s.isDoublePressed).2 = { s with flagDoublePressed := false } := by
  obtain ⟨h1, h2, h3, h4, h5, h6, h7, h8, h9, h10, h11, fdp, h13, h14, h15⟩ := s
  cases fdp <;> simp [Debounce16.isDoublePressed]

/-- Witness for C9 at a state whose double-press flag is set. -/
theorem C9_witness : ((sFlagDP.isDoublePressed).2.isDoublePressed).1 = false :=
  (C9_double_press_read_once sFlagDP).1 (by decide)

/-- The state machine preserves the idle-implies-zero-clicks invariant. -/
theorem usm_idleInv (s : Debounce16) (t : Nat) (h : IdleInv s) :
    IdleInv (s.updateStateMachine t).1 := by
  unfold Debounce16.updateStateMachine
  cases hsb : s.stateButton <;>
    simp only [Debounce16.isPressed, Debounce16.isReleased, Debounce16.resetState] <;>
    (repeat' split) <;>
    simp_all [IdleInv]

/-- `update` preserves the idle-implies-zero-clicks invariant. -/
theorem update_idleInv (s : Debounce16) (b : Bool) (t : Nat) (h : IdleInv s) :
    IdleInv (s.update b t).1 := by
  simp only [Debounce16.update]
  split
  · exact usm_idleInv _ _ h
  · exact h

/-- C7: the invariant "whenever the gesture phase is idle the click counter
is 0" holds at construction and is preserved by every tick, every query and
every configuration call; moreover, immediately after double-press detection
is disabled the click counter is 0. -/
theorem C7_idle_click_invariant :
    (∀ pin lvl, IdleInv (construct pin lvl)) ∧
    (∀ s b t, IdleInv s → IdleInv (s.update b t).1) ∧
    (∀ s, IdleInv s → IdleInv (s.isPressed).2.1) ∧
    (∀ s, IdleInv s → IdleInv (s.isReleased).2.1) ∧
    (∀ s e, IdleInv s → IdleInv (s.enableDoublePressDetection e)) ∧
    (∀ s w, IdleInv s → IdleInv (s.setDoublePressWindow w)) ∧
    (∀ s e, IdleInv s → IdleInv (s.enableLongPressDetection e)) ∧
    (∀ s w, IdleInv s → IdleInv (s.setLongPressThreshold w)) ∧
    (∀ s, IdleInv s → IdleInv (s.isDoublePressed).2) ∧
    (∀ s, IdleInv s → IdleInv (s.getClickCount).2) ∧
    (∀ s : Debounce16, (s.enableDoublePressDetection false).countClick = 0) := by
  refine ⟨fun pin lvl _ => rfl, update_idleInv, ?_, ?_, ?_, ?_, ?_, ?_, ?_, ?_, ?_⟩
  · intro s h
    unfold Debounce16.isPressed
    (repeat' split) <;> exact h
  · intro s h
    unfold Debounce16.isReleased
    (repeat' split) <;> exact h
  · intro s e h
    simp only [Debounce16.enableDoublePressDetection]
    split
    · intro _
      rfl
    · exact h
  · intro s w h
    exact h
  · intro s e h
    simp only [Debounce16.enableLongPressDetection]
    split <;> exact h
  · intro s w h
    exact h
  · intro s h
    simp only [Debounce16.isDoublePressed]
    split <;> exact h
  · intro s h
    simp only [Debounce16.getClickCount]
    split
    · intro _
      rfl
    · exact h
  · intro s
    rfl

/-- Witness for C7: one update step from the fresh state keeps the
invariant. -/
theorem C7_witness : IdleInv ((b0.update true 0).1) :=
  C7_idle_click_invariant.2.1 b0 true 0 (fun _ => rfl)

/-- `isPressed` returns false whenever its one-shot guard is already set. -/
theorem isPressed_false_of_processed (s : Debounce16)
    (h : s.flagPressProcessed = true) : (s.isPressed).1 = false := by
  unfold Debounce16.isPressed
  (repeat' split) <;> simp_all

/-- `isReleased` returns false whenever its one-shot guard is already set. -/
theorem isReleased_false_of_processed (s : Debounce16)
    (h : s.flagReleaseProcessed = true) : (s.isReleased).1 = false := by
  unfold Debounce16.isReleased
  (repeat' split) <;> simp_all

/-- If a tick of the state machine emitted a press event then the press
guard is set in the resulting state. -/
theorem usm_press_spec (s : Debounce16) (t : Nat) :
    Event.press ∉ (s.updateStateMachine t).2 ∨
    (s.updateStateMachine t).1.flagPressProcessed = true := by
  unfold Debounce16.updateStateMachine
  cases s.stateButton <;>
    simp only [Debounce16.isPressed, Debounce16.isReleased, Debounce16.resetState] <;>
    (repeat' split) <;>
    simp_all

/-- If a tick of the state machine emitted a release event then the release
guard is set in the resulting state. -/
theorem usm_release_spec (s : Debounce16) (t : Nat) :
    Event.release ∉ (s.updateStateMachine t).2 ∨
    (s.updateStateMachine t).1.flagReleaseProcessed = true := by
  unfold Debounce16.updateStateMachine
  cases s.stateButton <;>
    simp only [Debounce16.isPressed, Debounce16.isReleased, Debounce16.resetState] <;>
    (repeat' split) <;>
    simp_all

/-- Lift of `usm_press_spec` to a full `update` call. -/
theorem update_press_spec (s : Debounce16) (b : Bool) (t : Nat) :
    Event.press ∉ (s.update b t).2 ∨
    (s.update b t).1.flagPressProcessed = true := by
  simp only [Debounce16.update]
  split
  · exact usm_press_spec _ _
  · left
    simp

/-- Lift of `usm_release_spec` to a full `update` call. -/
theorem update_release_spec (s : Debounce16) (b : Bool) (t : Nat) :
    Event.release ∉ (s.update b t).2 ∨
    (s.update b t).1.flagReleaseProcessed = true := by
  simp only [Debounce16.update]
  split
  · exact usm_release_spec _ _
  · left
    simp

/-- C10: with both advanced features disabled, a tick emits no events and
the press/release edges remain observable by an external caller (the polled
result is exactly "new pattern matches and the guard was not yet set");
with a feature enabled, an edge already consumed by the state machine inside
the tick is no longer observable: the subsequent external `isPressed`
(resp. `isReleased`) returns false. -/
theorem C10_tick_consumes_edges :
    (∀ (s : Debounce16) (b : Bool) (t : Nat),
      s.flagEnableDoublePress = false → s.flagEnableLongPress = false →
      (s.update b t).2 = [] ∧
      ((s.update b t).1.isPressed).1 =
        (decide ((s.update b t).1.historyButton &&& MASK_PRESS = PATTERN_PRESS) &&
         !s.flagPressProcessed) ∧
      ((s.update b t).1.isReleased).1 =
        (decide ((s.update b t).1.historyButton &&& MASK_RELEASE = PATTERN_RELEASE) &&
         !s.flagReleaseProcessed)) ∧
    (∀ (s : Debounce16) (b : Bool) (t : Nat),
      s.flagEnableDoublePress = true ∨ s.flagEnableLongPress = true →
      (Event.press ∈ (s.update b t).2 → ((s.update b t).1.isPressed).1 = false) ∧
      (Event.release ∈ (s.update b t).2 → ((s.update b t).1.isReleased).1 = false)) := by
  constructor
  · intro s b t h1 h2
    simp only [Debounce16.update]
    split
    · rename_i hcond
      simp only [h1, h2] at hcond
      simp at hcond
    · refine ⟨rfl, ?_, ?_⟩
      · unfold Debounce16.isPressed
        (repeat' split) <;> simp_all
      · unfold Debounce16.isReleased
        (repeat' split) <;> simp_all
  · intro s b t _hen
    constructor
    · intro hm
      rcases update_press_spec s b t with hn | hf
      · exact absurd hm hn
      · exact isPressed_false_of_processed _ hf
    · intro hm
      rcases update_release_spec s b t with hn | hf
      · exact absurd hm hn
      · exact isReleased_false_of_processed _ hf

/-- Witness for C10: the 6th ON tick of the double-press-enabled button
consumes the press edge (the external poll returns false), while on a fresh
disabled button the same tick emits nothing and leaves the edge observable. -/
theorem C10_witness :
    (((c10s.update true 5).1.isPressed).1 = false) ∧
    (b0.update true 0).2 = [] :=
  ⟨(C10_tick_consumes_edges.2 c10s true 5 (Or.inl (by decide))).1 (by decide),
   (C10_tick_consumes_edges.1 b0 true 0 rfl rfl).1⟩

/-- Bitwise-or with 1 on an even number is addition of 1. -/
theorem two_mul_or_one (h : Nat) : 2 * h ||| 1 = 2 * h + 1 := by
  apply Nat.eq_of_testBit_eq
  intro i
  cases i with
  | zero =>
      have e2 : (2 * h + 1) % 2 = 1 := by omega
      simp [Nat.testBit_zero, decide_eq_decide, Nat.or_mod_two_eq_one, e2]
  | succ j =>
      simp only [Nat.testBit_add_one, Nat.or_div_two]
      have e1 : 2 * h / 2 = h := by omega
      have e2 : (2 * h + 1) / 2 = h := by omega
      have e3 : (1 : Nat) / 2 = 0 := by norm_num
      rw [e1, e2, e3, Nat.or_zero]

/-- Arithmetic form of the history-register step. -/
theorem histStep_arith (h : Nat) (b : Bool) :
    histStep h b = (2 * h + (if b then 1 else 0)) % U16 := by
  unfold histStep
  cases b
  · simp [Nat.shiftLeft_eq, Nat.mul_comm]
  · rw [Nat.shiftLeft_eq, pow_one, Nat.mul_comm h 2]
    simp [two_mul_or_one]

/-- The low `j + 1` bits of a stepped history are all ones exactly when the
new sample is ON and the low `j` bits of the previous history were all
ones. -/
theorem histStep_ones_iff (h : Nat) (b : Bool) (j : Nat) (hj : j + 1 ≤ 16) :
    (histStep h b % 2 ^ (j + 1) = 2 ^ (j + 1) - 1) ↔
      (b = true ∧ h % 2 ^ j = 2 ^ j - 1) := by
  rw [histStep_arith]
  have hU : U16 = 2 ^ 16 := by norm_num [U16]
  rw [hU, Nat.mod_mod_of_dvd _ (pow_dvd_pow 2 hj)]
  have hps : (2 : Nat) ^ (j + 1) = 2 * 2 ^ j := by rw [pow_succ, Nat.mul_comm]
  have hml : 2 * h % (2 * 2 ^ j) = 2 * (h % 2 ^ j) := Nat.mul_mod_mul_left 2 h (2 ^ j)
  have hp : 0 < (2 : Nat) ^ j := Nat.pos_pow_of_pos j (by norm_num)
  have hm : h % 2 ^ j < 2 ^ j := Nat.mod_lt _ hp
  cases b
  · simp only [Bool.false_eq_true, if_false, Nat.add_zero, hps, hml, false_and,
      iff_false]
    omega
  · simp only [if_true, true_and, hps]
    have he : (2 * h + 1) % (2 * 2 ^ j) = 2 * (h % 2 ^ j) + 1 := by
      rw [Nat.add_mod, hml]
      have h1M : 1 % (2 * 2 ^ j) = 1 := Nat.mod_eq_of_lt (by omega)
      rw [h1M, Nat.mod_eq_of_lt (by omega)]
    rw [he]
    omega

/-- Unfolding `histRun` over a snoc. -/
theorem histRun_snoc (h : Nat) (p : List Bool) (b : Bool) :
    histRun h (p ++ [b]) = histStep (histRun h p) b := by
  simp [histRun, List.foldl_append]

/-- The low `k` bits of the history after a run from 0 are all ones exactly
when the last `k` admitted samples exist and are all ON. -/
theorem histRun_low_ones (p : List Bool) :
    ∀ k, k ≤ 16 →
      (histRun 0 p % 2 ^ k = 2 ^ k - 1 ↔
        (k ≤ p.length ∧ ∀ x ∈ p.drop (p.length - k), x = true)) := by
  induction p using List.reverseRecOn with
  | nil =>
      intro k hk
      constructor
      · intro he
        have h0 : histRun 0 ([] : List Bool) = 0 := rfl
        rw [h0, Nat.zero_mod] at he
        have hk0 : k = 0 := by
          by_contra hne
          have h2 : 2 ≤ 2 ^ k := by
            calc (2 : Nat) = 2 ^ 1 := by norm_num
              _ ≤ 2 ^ k := Nat.pow_le_pow_right (by norm_num) (by omega)
          omega
        subst hk0
        exact ⟨by simp, by simp⟩
      · rintro ⟨hk0, _⟩
        simp only [List.length_nil, Nat.le_zero] at hk0
        subst hk0
        simp [histRun]
  | append_singleton p b ih =>
      intro k hk
      rw [histRun_snoc]
      cases k with
      | zero =>
          constructor
          · intro _
            refine ⟨Nat.zero_le _, ?_⟩
            intro x hx
            rw [List.drop_of_length_le (by simp)] at hx
            cases hx
          · intro _
            omega
      | succ j =>
          rw [histStep_ones_iff _ _ _ hk, ih j (by omega)]
          have hlen : (p ++ [b]).length = p.length + 1 := by simp
          have hdrop : (p ++ [b]).drop ((p ++ [b]).length - (j + 1)) =
              p.drop (p.length - j) ++ [b] := by
            rw [hlen]
            have e1 : p.length + 1 - (j + 1) = p.length - j := by omega
            rw [e1, List.drop_append_eq_append_drop]
            have e2 : p.length - j - p.length = 0 := by omega
            rw [e2]
            simp
          rw [hdrop, hlen, List.forall_mem_append]
          simp only [List.mem_singleton, forall_eq]
          constructor
          · rintro ⟨hb, hjl, ha⟩
            exact ⟨by omega, ha, hb⟩
          · rintro ⟨hjl, ha, hb⟩
            exact ⟨hb, by omega, ha⟩

/-- The press pattern holds on a run-from-empty history exactly when the run
has at least 6 samples and its last 6 samples are all ON. -/
theorem pattern_press_iff (p : List Bool) :
    (histRun 0 p &&& MASK_PRESS = PATTERN_PRESS) ↔
      (6 ≤ p.length ∧ ∀ x ∈ p.drop (p.length - 6), x = true) := by
  have h1 : MASK_PRESS = 2 ^ 6 - 1 := by norm_num [MASK_PRESS]
  have h2 : PATTERN_PRESS = 2 ^ 6 - 1 := by norm_num [PATTERN_PRESS]
  rw [h1, h2, Nat.and_pow_two_sub_one_eq_mod]
  exact histRun_low_ones p 6 (by norm_num)

/-- One poll step of a filter-only run: the history advances by `histStep`,
the invariant is preserved, and the polled result is "pattern newly
entered". -/
theorem pressPoll_spec (s : Debounce16) (b : Bool) (hI : FilterInv s) :
    (pressPoll s b).1.historyButton = histStep s.historyButton b ∧
    FilterInv (pressPoll s b).1 ∧
    (pressPoll s b).2 =
      (decide (histStep s.historyButton b &&& MASK_PRESS = PATTERN_PRESS) &&
       !(decide (s.historyButton &&& MASK_PRESS = PATTERN_PRESS))) := by
  obtain ⟨hLvl, hDP, hLP, hFlag⟩ := hI
  by_cases hnew : histStep s.historyButton b &&& MASK_PRESS = PATTERN_PRESS <;>
    by_cases hold : s.historyButton &&& MASK_PRESS = PATTERN_PRESS <;>
      simp_all [pressPoll, Debounce16.update, Debounce16.readButtonRaw,
        Debounce16.isPressed, histStep, FilterInv]

/-- A filter-only run of `pressTrace` computes `pressOutF` from the initial
history. -/
theorem pressTrace_eq (bs : List Bool) :
    ∀ s, FilterInv s → pressTrace s bs = pressOutF s.historyButton bs := by
  induction bs with
  | nil =>
      intro s _
      rfl
  | cons b bs ih =>
      intro s hI
      obtain ⟨h1, h2, h3⟩ := pressPoll_spec s b hI
      show (pressPoll s b).2 :: pressTrace (pressPoll s b).1 bs = _
      rw [pressOutF, h3, ih _ h2, h1]

/-- `pressOutF` preserves length. -/
theorem pressOutF_length (bs : List Bool) : ∀ h, (pressOutF h bs).length = bs.length := by
  induction bs with
  | nil =>
      intro h
      rfl
  | cons b bs ih =>
      intro h
      simp [pressOutF, ih]

/-- Indexed characterization of `pressOutF`: the output at position `i` is
"press pattern holds after `i + 1` samples and did not hold after `i`
samples". -/
theorem pressOutF_get (bs : List Bool) :
    ∀ (h i : Nat) (hl : i < (pressOutF h bs).length),
      (pressOutF h bs).get ⟨i, hl⟩ =
        (decide (histRun h (bs.take (i + 1)) &&& MASK_PRESS = PATTERN_PRESS) &&
         !(decide (histRun h (bs.take i) &&& MASK_PRESS = PATTERN_PRESS))) := by
  induction bs with
  | nil =>
      intro h i hl
      simp [pressOutF] at hl
  | cons b bs ih =>
      intro h i hl
      cases i with
      | zero =>
          rw [List.get_eq_getElem]
          simp [pressOutF, histRun]
      | succ i =>
          rw [List.get_eq_getElem]
          have hl' : i < (pressOutF (histStep h b) bs).length := by
            have := hl
            simp only [pressOutF, List.length_cons] at this
            omega
          have hstep := ih (histStep h b) i hl'
          rw [List.get_eq_getElem] at hstep
          simp only [pressOutF, List.getElem_cons_succ]
          rw [hstep]
          simp [histRun]

/-- Membership in a `take`-`drop` slice, rephrased with indices into the
original list. -/
theorem all_mem_take_drop (bs : List Bool) (m d : Nat) :
    (∀ x ∈ (bs.take m).drop d, x = true) ↔
      (∀ j (hj : j < bs.length), d ≤ j → j < m → bs.get ⟨j, hj⟩ = true) := by
  constructor
  · intro H j hj hdj hjm
    have hlen : j - d < ((bs.take m).drop d).length := by
      simp only [List.length_drop, List.length_take]
      omega
    have hget : ((bs.take m).drop d).get ⟨j - d, hlen⟩ = bs.get ⟨j, hj⟩ := by
      rw [List.get_eq_getElem, List.get_eq_getElem, List.getElem_drop,
        List.getElem_take]
      have e : d + (j - d) = j := by omega
      simp only [e]
    rw [← hget]
    exact H _ (List.get_mem _ _ _)
  · intro H x hx
    obtain ⟨n, hn, he⟩ := List.mem_iff_getElem.mp hx
    have hb : d + n < bs.length ∧ d + n < m := by
      simp only [List.length_drop, List.length_take] at hn
      omega
    have hv := H (d + n) hb.1 (Nat.le_add_right d n) hb.2
    rw [List.get_eq_getElem] at hv
    rw [← he, List.getElem_drop, List.getElem_take]
    exact hv

/-- C3: polling `isPressed` after each admitted sample, the poll returns
true at position `i` exactly when `i` is the 6th sample of a maximal run of
at least 6 consecutive ON samples (samples `i - 5 .. i` all ON, and the run
starts the sequence at `i = 5` or sample `i - 6` is OFF); consequently the
edge fires exactly once per such maximal run, never during the run's first
5 samples, and the poll is false on every other call, including while
steadily pressed or steadily released. -/
theorem C3_press_edge_characterization (bs : List Bool) (i : Nat)
    (hi : i < bs.length) (hlen : i < (pressTrace b0 bs).length) :
    ((pressTrace b0 bs).get ⟨i, hlen⟩ = true) ↔
      (5 ≤ i ∧
       (∀ j (hj : j < bs.length), i - 5 ≤ j → j ≤ i → bs.get ⟨j, hj⟩ = true) ∧
       (i = 5 ∨ bs.getD (i - 6) true = false)) := by
  have hI : FilterInv b0 := ⟨rfl, rfl, rfl, rfl⟩
  have hEq : pressTrace b0 bs = pressOutF 0 bs := pressTrace_eq bs b0 hI
  rw [List.get_of_eq hEq]
  have hvi : ((⟨i, hlen⟩ : Fin (pressTrace b0 bs).length) : Nat) = i := rfl
  simp only [hvi]
  rw [pressOutF_get]
  rw [Bool.and_eq_true, Bool.not_eq_true', decide_eq_true_eq,
    decide_eq_false_iff_not]
  rw [pattern_press_iff, pattern_press_iff]
  have ht1 : (bs.take (i + 1)).length = i + 1 := by
    simp only [List.length_take]
    omega
  have ht0 : (bs.take i).length = i := by
    simp only [List.length_take]
    omega
  rw [ht1, ht0]
  have e1 : i + 1 - 6 = i - 5 := by omega
  rw [e1, all_mem_take_drop, all_mem_take_drop]
  constructor
  · rintro ⟨⟨h6, hA⟩, hnB⟩
    have h5 : 5 ≤ i := by omega
    have hA' : ∀ j (hj : j < bs.length), i - 5 ≤ j → j ≤ i → bs.get ⟨j, hj⟩ = true :=
      fun j hj h1 h2 => hA j hj h1 (by omega)
    refine ⟨h5, hA', ?_⟩
    by_cases h6i : 6 ≤ i
    · by_cases hgd : bs.getD (i - 6) true = false
      · exact Or.inr hgd
      · exfalso
        apply hnB
        refine ⟨h6i, ?_⟩
        intro j hj h1 h2
        by_cases hj6 : j = i - 6
        · subst hj6
          have hgd6 : bs.getD (i - 6) true = bs.get ⟨i - 6, hj⟩ := by
            rw [List.getD_eq_getElem _ _ hj, List.get_eq_getElem]
          cases hb : bs.get ⟨i - 6, hj⟩
          · exact absurd (by rw [hgd6, hb]) hgd
          · rfl
        · exact hA' j hj (by omega) (by omega)
    · exact Or.inl (by omega)
  · rintro ⟨h5, hA', hor⟩
    have hA : ∀ j (hj : j < bs.length), i - 5 ≤ j → j < i + 1 → bs.get ⟨j, hj⟩ = true :=
      fun j hj h1 h2 => hA' j hj h1 (by omega)
    refine ⟨⟨by omega, hA⟩, ?_⟩
    rintro ⟨h6i, hB⟩
    rcases hor with h5e | hgd
    · omega
    · have hj6 : i - 6 < bs.length := by omega
      have hv := hB (i - 6) hj6 (Nat.le_refl _) (by omega)
      have hgd6 : bs.getD (i - 6) true = true := by
        rw [List.getD_eq_getElem _ _ hj6]
        rw [List.get_eq_getElem] at hv
        exact hv
      rw [hgd6] at hgd
      simp at hgd

/-- Witness for C3: on six consecutive ON samples the poll fires exactly at
position 5, the run's 6th sample. -/
theorem C3_witness :
    (pressTrace b0 [true, true, true, true, true, true]).get ⟨5, by decide⟩ = true := by
  have h := C3_press_edge_characterization
    [true, true, true, true, true, true] 5 (by decide) (by decide)
  exact h.mpr (by decide)
